import Mathlib

/-!
Shallow embedding of `deployment-drivers/go/http/main.go` from the
`pgavlin/deploy-demos` repository.

The Go program is a stateless HTTP control-plane service: each handler
decodes its request body, issues one or more outbound HTTP calls to the
remote Pulumi deployment-management API, and maps the responses back into
an HTTP response.  We embed each handler as a pure function from
  - the JSON-decode result of the inbound request body, and
  - the outcomes of the outbound remote calls it would issue
to an `HandlerResponse` recording the HTTP status, the response body, and
the ordered trace of outbound calls the handler issued.  JSON decoding is
external to the program (encoding/json); we take each decoder's result as
an input (`Except String` mirroring Go's value-or-error).
-/

/-- Mirrors Go `gitContext` (fields `Branch`, `RepoDir`). -/
structure gitContext where
  Branch : String
  RepoDir : String
deriving DecidableEq, Repr

/-- Mirrors Go `sourceContext` (field `Git`). -/
structure sourceContext where
  Git : gitContext
deriving DecidableEq, Repr

/-- Mirrors Go `awsOIDCContext` (fields `RoleARN`, `SessionName`). -/
structure awsOIDCContext where
  RoleARN : String
  SessionName : String
deriving DecidableEq, Repr

/-- Mirrors Go `oidcContext` (pointer field `AWS`; `none` is Go `nil`). -/
structure oidcContext where
  AWS : Option awsOIDCContext
deriving DecidableEq, Repr

/-- Mirrors Go `operationContext`: `Environment` is a `map[string]string`
(embedded as an association list) and `OIDC` a nullable pointer. -/
structure operationContext where
  Environment : List (String × String)
  OIDC : Option oidcContext
deriving DecidableEq, Repr

/-- Mirrors Go `gitHubContext`. -/
structure gitHubContext where
  Repository : String
  Paths : List String
  DeployCommits : Bool
  PreviewPullRequests : Bool
deriving DecidableEq, Repr

/-- Mirrors Go `DeploymentSettings`: three nullable pointers. -/
structure DeploymentSettings where
  SourceContext : Option sourceContext
  OperationContext : Option operationContext
  GitHub : Option gitHubContext
deriving DecidableEq, Repr

/-- Mirrors Go `createDeploymentRequest`, which embeds `DeploymentSettings`
and adds `InheritSettings` and `Operation`. -/
structure createDeploymentRequest extends DeploymentSettings where
  InheritSettings : Bool
  Operation : String
deriving DecidableEq, Repr

/-- Mirrors Go `operationStatus` (fields `Kind`, `Author`, `Started`). -/
structure operationStatus where
  Kind : String
  Author : String
  Started : Int
deriving DecidableEq, Repr

/-- Mirrors Go `getStackResponse`: `CurrentOperation` is a nullable pointer. -/
structure getStackResponse where
  CurrentOperation : Option operationStatus
deriving DecidableEq, Repr

/-- Mirrors Go `organizationSummary`. -/
structure organizationSummary where
  GitHubLogin : String
deriving DecidableEq, Repr

/-- Mirrors Go `getUserResponse`. -/
structure getUserResponse where
  Organizations : List organizationSummary
deriving DecidableEq, Repr

/-- Mirrors Go `createSiteRequest`. -/
structure createSiteRequest where
  ID : String
  Content : String
deriving DecidableEq, Repr

/-- Mirrors Go `updateSiteRequest`. -/
structure updateSiteRequest where
  Content : String
deriving DecidableEq, Repr

/-- Mirrors Go `getSiteResponse` (fields `ID`, `URL`, `Status`; the latter
two carry `omitempty`, see `jsonSiteFields`). -/
structure getSiteResponse where
  ID : String
  URL : String
  Status : String
deriving DecidableEq, Repr

/-- The JSON fields produced by `json.NewEncoder(w).Encode` on a
`getSiteResponse`: `id` always, `url` and `status` only when non-empty
(their Go struct tags say `omitempty`). -/
def jsonSiteFields (r : getSiteResponse) : List (String × String) :=
  ("id", r.ID) ::
    ((if r.URL = "" then [] else [("url", r.URL)]) ++
     (if r.Status = "" then [] else [("status", r.Status)]))

/-- A JSON value, used to embed the `map[string]interface\x7b\x7d` outputs of a
resource in an exported deployment. -/
inductive JValue where
  | str (s : String)
  | num (n : Int)
  | bool (b : Bool)
  | null
  | arr (elems : List JValue)
  | obj (fields : List (String × JValue))

/-- Mirrors `apitype.ResourceV3` restricted to the two fields the program
reads: its `Type` token (named `typ` here, `Type` being a Lean keyword)
and `Outputs` (a `map[string]interface\x7b\x7d`, embedded as an
association list). -/
structure ResourceV3 where
  typ : String
  Outputs : List (String × JValue)

/-- Mirrors `apitype.DeploymentV3` restricted to the field the program
reads: `Resources`. -/
structure DeploymentV3 where
  Resources : List ResourceV3

/-- Mirrors `apitype.UntypedDeployment`: a schema `Version` and the raw
`Deployment` JSON message (kept abstract as a string). -/
structure UntypedDeployment where
  Version : Int
  Deployment : String
deriving DecidableEq, Repr

/-- `apitype.DeploymentSchemaVersionCurrent` from the Pulumi SDK: the
deployment schema version this service understands (3 in the vendored
SDK; the claims only depend on equality with it, not on the value). -/
def DeploymentSchemaVersionCurrent : Int := 3

/-- Outcome of one outbound call made with the resty client: either a
transport error (Go `err != nil`) or an HTTP response with a status code
and a body. -/
inductive RemoteResult where
  | transportError (msg : String)
  | response (status : Nat) (body : String)
deriving DecidableEq, Repr

/-- Outcome of the `GET /stacks/org/project/id` call in `get`: transport
error, or a response whose body (when consulted) JSON-decodes to a
`getStackResponse` or fails. -/
inductive GetStackOutcome where
  | transportError (msg : String)
  | response (status : Nat) (rawBody : String)
      (decoded : Except String getStackResponse)

/-- Outcome of the `GET /stacks/org/project/id/export` call in `get`:
transport error, or a response whose body JSON-decodes to an
`UntypedDeployment` (or fails), plus the result of the inner
`json.Unmarshal` of its `Deployment` message into a `DeploymentV3`
(consulted only when the schema version matches). -/
inductive ExportOutcome where
  | transportError (msg : String)
  | response (status : Nat) (rawBody : String)
      (decoded : Except String UntypedDeployment)
      (deploymentDecoded : Except String DeploymentV3)

/-- Outcome of the `GET /user` call made at startup when no organization
is configured. -/
inductive UserLookupOutcome where
  | transportError (msg : String)
  | response (status : Nat) (rawBody : String)
      (decoded : Except String getUserResponse)

/-- One outbound call to the remote API, identified by endpoint and the
request payload sent. -/
inductive OutboundCall where
  | createStack (org project stackName : String)
  | configureSettings (org project stackName : String)
      (settings : DeploymentSettings)
  | startDeployment (org project stackName : String)
      (req : createDeploymentRequest)
  | getStack (org project id : String)
  | exportStack (org project id : String)
  | getUser
deriving DecidableEq, Repr

/-- The body a handler writes back to its caller. -/
inductive ResponseBody where
  | text (s : String)
  | jsonSite (site : getSiteResponse)
  | empty
deriving DecidableEq, Repr

/-- What one inbound HTTP request produced: the response status and body,
and the ordered trace of outbound remote calls the handler issued. -/
structure HandlerResponse where
  httpStatus : Nat
  body : ResponseBody
  calls : List OutboundCall
deriving DecidableEq, Repr

/-- Mirrors Go `siteServer` (static configuration; the resty client is
implicit in the `RemoteResult` inputs of each handler). -/
structure siteServer where
  repository : String
  branch : String
  dir : String
  roleARN : String
  sessionName : String
  apiToken : String
  org : String
  project : String
deriving DecidableEq, Repr

/-- The `createDeploymentRequest` body built by `siteServer.updateStack`:
inherit settings, operation `update`, and an operation context whose only
environment variable is `SITE_CONTENT`. -/
def updateDeploymentRequest (content : String) : createDeploymentRequest :=
  { SourceContext := none
    OperationContext := some
      { Environment := [("SITE_CONTENT", content)]
        OIDC := none }
    GitHub := none
    InheritSettings := true
    Operation := "update" }

/-- The `createDeploymentRequest` body built by `siteServer.delete`: only
`InheritSettings` and `Operation` are set (the embedded settings are the
Go zero value, i.e. all nil). -/
def destroyDeploymentRequest : createDeploymentRequest :=
  { SourceContext := none
    OperationContext := none
    GitHub := none
    InheritSettings := true
    Operation := "destroy" }

/-- Mirrors `siteServer.updateStack`: POSTs the update deployment request
and returns an error on transport failure or any status other than 202
(`http.StatusAccepted`), carrying the upstream body as the error text. -/
def siteServer.updateStack (_s : siteServer) (_stack _content : String)
    (resp : RemoteResult) : Except String Unit :=
  match resp with
  | .transportError msg => .error msg
  | .response status body =>
    if status ≠ 202 then .error body else .ok ()

/-- The deployment-trigger `Paths` computed in `create`: `dir + "/**"`
when a subdirectory is configured, nil otherwise. -/
def createSettingsPaths (s : siteServer) : List String :=
  if s.dir = "" then [] else [s.dir ++ "/**"]

/-- The `DeploymentSettings` body built in `create` (lines 181-205 of
main.go): git source context, AWS_REGION environment plus AWS OIDC role,
and GitHub trigger rules. -/
def createSettings (s : siteServer) : DeploymentSettings :=
  { SourceContext := some { Git := { Branch := s.branch, RepoDir := s.dir } }
    OperationContext := some
      { Environment := [("AWS_REGION", "us-west-2")]
        OIDC := some { AWS := some { RoleARN := s.roleARN, SessionName := s.sessionName } } }
    GitHub := some
      { Repository := s.repository
        Paths := createSettingsPaths s
        DeployCommits := true
        PreviewPullRequests := false } }

/-- The body written by Go `internalServerError` (the upstream detail is
only logged, never written to the caller). -/
def internalServerErrorBody : ResponseBody := .text "Internal Server Error"

/-- Mirrors `siteServer.create`: decode the body (400 on failure, before
any outbound call); register the stack (500 unless status 200 or 409);
configure deployment settings (500 unless status 200); start the first
deployment via `updateStack` (500 on error); on success 202 with a JSON
body carrying the id. -/
def siteServer.create (s : siteServer) (body : Except String createSiteRequest)
    (registerResp settingsResp deployResp : RemoteResult) : HandlerResponse :=
  match body with
  | .error _ => ⟨400, .text "failed to parse create request", []⟩
  | .ok create =>
    let stack := create.ID
    let registerCall := OutboundCall.createStack s.org s.project stack
    match registerResp with
    | .transportError _ => ⟨500, internalServerErrorBody, [registerCall]⟩
    | .response st _ =>
      if st ≠ 200 ∧ st ≠ 409 then ⟨500, internalServerErrorBody, [registerCall]⟩
      else
        let settingsCall := OutboundCall.configureSettings s.org s.project stack (createSettings s)
        match settingsResp with
        | .transportError _ => ⟨500, internalServerErrorBody, [registerCall, settingsCall]⟩
        | .response st2 _ =>
          if st2 ≠ 200 then ⟨500, internalServerErrorBody, [registerCall, settingsCall]⟩
          else
            let deployCall := OutboundCall.startDeployment s.org s.project stack
              (updateDeploymentRequest create.Content)
            match s.updateStack stack create.Content deployResp with
            | .error _ => ⟨500, internalServerErrorBody, [registerCall, settingsCall, deployCall]⟩
            | .ok _ =>
              ⟨202, .jsonSite { ID := stack, URL := "", Status := "" },
                [registerCall, settingsCall, deployCall]⟩

/-- Mirrors `siteServer.update`: decode the body (400 on failure, before
any outbound call); start an update deployment via `updateStack` (500 on
error); on success 202 with an empty body. -/
def siteServer.update (s : siteServer) (id : String)
    (body : Except String updateSiteRequest) (deployResp : RemoteResult) :
    HandlerResponse :=
  match body with
  | .error _ => ⟨400, .text "failed to parse update request", []⟩
  | .ok u =>
    let call := OutboundCall.startDeployment s.org s.project id
      (updateDeploymentRequest u.Content)
    match s.updateStack id u.Content deployResp with
    | .error _ => ⟨500, internalServerErrorBody, [call]⟩
    | .ok _ => ⟨202, .empty, [call]⟩

/-- Mirrors `siteServer.delete`: POST a destroy deployment request; 500 on
transport failure or any status other than 202; on success 202 with an
empty body. -/
def siteServer.delete (s : siteServer) (id : String) (resp : RemoteResult) :
    HandlerResponse :=
  let call := OutboundCall.startDeployment s.org s.project id destroyDeploymentRequest
  match resp with
  | .transportError _ => ⟨500, internalServerErrorBody, [call]⟩
  | .response st _ =>
    if st ≠ 202 then ⟨500, internalServerErrorBody, [call]⟩
    else ⟨202, .empty, [call]⟩

/-- Mirrors the first closure in `siteServer.get`: fetch the stack; error
on transport failure, on any status other than 200 (carrying the upstream
body), or on a decode failure; otherwise yield the (nullable) current
operation. -/
def getOperation (o : GetStackOutcome) : Except String (Option operationStatus) :=
  match o with
  | .transportError msg => .error msg
  | .response status rawBody decoded =>
    if status ≠ 200 then .error rawBody
    else
      match decoded with
      | .error e => .error e
      | .ok respBody => .ok respBody.CurrentOperation

/-- The status derivation in `siteServer.get` (lines 260-267 of main.go):
`IDLE` when there is no current operation, `DELETING` when its kind is
`destroy`, `UPDATING` otherwise. -/
def deriveStatus (operation : Option operationStatus) : String :=
  match operation with
  | none => "IDLE"
  | some op => if op.Kind = "destroy" then "DELETING" else "UPDATING"

/-- Mirrors the second closure in `siteServer.get`: fetch the exported
deployment; error on transport failure, non-200 status, or a failed
decode of either layer; yield `none` (a nil outputs map) when the schema
version is not the one this service understands or when no resource of
type `pulumi:pulumi:Stack` occurs in the resource list; otherwise yield
the first such resource's outputs. -/
def getOutputs (o : ExportOutcome) : Except String (Option (List (String × JValue))) :=
  match o with
  | .transportError msg => .error msg
  | .response status rawBody decoded deploymentDecoded =>
    if status ≠ 200 then .error rawBody
    else
      match decoded with
      | .error e => .error e
      | .ok respBody =>
        if respBody.Version ≠ DeploymentSchemaVersionCurrent then .ok none
        else
          match deploymentDecoded with
          | .error e => .error ("unmarshaling deployment: " ++ e)
          | .ok stack =>
            match stack.Resources.find? (fun r => r.typ = "pulumi:pulumi:Stack") with
            | none => .ok none
            | some stackResource => .ok (some stackResource.Outputs)

/-- Go map lookup `outputs[key]`: the first binding for `key`, if any
(`none` is the missing-key / nil-map case). -/
def lookupOutput (outputs : List (String × JValue)) (key : String) : Option JValue :=
  (outputs.find? (fun p => p.1 = key)).map Prod.snd

/-- The non-panicking Go type assertion `url, _ := v.(string)`: the string
itself when the value is a string, the zero value `""` in every other
case (missing key, nil interface, or a non-string value). -/
def asStringOrEmpty (v : Option JValue) : String :=
  match v with
  | some (.str s) => s
  | _ => ""

/-- The `url` computed in `get` from the outputs map (line 311 of
main.go): `outputs["websiteUrl"].(string)` with the error ignored; a nil
map yields `""`. -/
def outputsUrl (outputs : Option (List (String × JValue))) : String :=
  match outputs with
  | none => ""
  | some outs => asStringOrEmpty (lookupOutput outs "websiteUrl")

/-- Mirrors `siteServer.get`: fetch the stack to derive the status, fetch
the export to locate the website URL; 500 on either closure's error;
otherwise encode `getSiteResponse` with the implicit 200 status. -/
def siteServer.get (s : siteServer) (id : String)
    (stackOutcome : GetStackOutcome) (exportOutcome : ExportOutcome) :
    HandlerResponse :=
  let stackCall := OutboundCall.getStack s.org s.project id
  match getOperation stackOutcome with
  | .error _ => ⟨500, internalServerErrorBody, [stackCall]⟩
  | .ok operation =>
    let status := deriveStatus operation
    let exportCall := OutboundCall.exportStack s.org s.project id
    match getOutputs exportOutcome with
    | .error _ => ⟨500, internalServerErrorBody, [stackCall, exportCall]⟩
    | .ok outputs =>
      let url := outputsUrl outputs
      ⟨200, .jsonSite { ID := id, URL := url, Status := status }, [stackCall, exportCall]⟩

/-- Result of the default-organization resolution in `main` when the
`-org` flag is empty: the `log.Fatalf` branch taken on a lookup error, a
runtime panic (Go index-out-of-range on `body.Organizations[0]`), or the
resolved organization name. -/
inductive ResolveResult where
  | fatal (msg : String)
  | panicIndexOutOfRange
  | ok (org : String)
deriving DecidableEq, Repr

/-- Mirrors the default-organization closure in `main` (lines 392-411 of
main.go) together with the `log.Fatalf` on its error: error on transport
failure, non-200 status, or decode failure; otherwise take
`Organizations[0].GitHubLogin`, which in Go panics when the list is
empty. -/
def resolveDefaultOrg (o : UserLookupOutcome) : ResolveResult :=
  match o with
  | .transportError msg => .fatal msg
  | .response status rawBody decoded =>
    if status ≠ 200 then .fatal (toString status ++ ": " ++ rawBody)
    else
      match decoded with
      | .error e => .fatal ("decoding response: " ++ e)
      | .ok body =>
        match body.Organizations with
        | [] => .panicIndexOutOfRange
        | o0 :: _ => .ok o0.GitHubLogin

/-- Whether the default-organization resolution succeeded, i.e. reached
the `*org = defaultOrg` assignment in `main` with a value: true exactly
for the `ok` outcome, false for the fatal branch and for the
index-out-of-range panic. -/
def ResolveResult.succeeded (r : ResolveResult) : Bool :=
  match r with
  | .ok _ => true
  | _ => false

/-- Whether `create` accepts the stack-registration response (source line
170: proceed when the status is 200 or 409). -/
def regAccepted (r : RemoteResult) : Bool :=
  match r with
  | .transportError _ => false
  | .response status _ => status == 200 || status == 409

/-- Whether a remote result is a response with exactly the given status
(and so passes the corresponding handler check). -/
def hasStatus (r : RemoteResult) (wanted : Nat) : Bool :=
  match r with
  | .transportError _ => false
  | .response status _ => status == wanted

/-- Whether an outbound call posts a deployment request whose operation is
`destroy` (the only way this service ever destroys or unregisters
anything). -/
def OutboundCall.isDestroy (c : OutboundCall) : Bool :=
  match c with
  | .startDeployment _ _ _ req => req.Operation == "destroy"
  | _ => false

/-- A concrete configuration used by the closed-form witnesses and
counterexamples. -/
def demoServer : siteServer :=
  { repository := "pgavlin/deploy-demos"
    branch := "main"
    dir := "pulumi-programs/bucket-time"
    roleARN := "arn:aws:iam::123456789012:role/deploy"
    sessionName := "site-deploy"
    apiToken := "pul-token"
    org := "demo-org"
    project := "bucket-time" }

/-! ## Theorems -/

/-- C1: for every Get request whose two remote calls succeed, the returned
status is derived solely from the stack's current operation: `IDLE` when
the stack response carries no current operation, `DELETING` when the
current operation's kind equals `destroy`, and `UPDATING` for a current
operation of any other kind. -/
theorem get_status_from_current_operation (s : siteServer) (id rawBody : String)
    (gr : getStackResponse) (eo : ExportOutcome)
    (outs : Option (List (String × JValue)))
    (hexp : getOutputs eo = .ok outs) :
    (s.get id (.response 200 rawBody (.ok gr)) eo).httpStatus = 200 ∧
    (s.get id (.response 200 rawBody (.ok gr)) eo).body =
      .jsonSite { ID := id, URL := outputsUrl outs,
                  Status :=
                    match gr.CurrentOperation with
                    | none => "IDLE"
                    | some op => if op.Kind = "destroy" then "DELETING" else "UPDATING" } := by
  simp only [siteServer.get, getOperation, hexp, deriveStatus]
  norm_num

/-- Closed witness for `get_status_from_current_operation`: a pending
destroy operation yields status `DELETING` (the export uses an
unrecognized schema version, so the URL is empty). -/
theorem get_status_from_current_operation_witness :
    (demoServer.get "site1" (.response 200 "" (.ok ⟨some ⟨"destroy", "alice", 0⟩⟩))
        (.response 200 "" (.ok ⟨2, "snap"⟩) (.error "unused"))).httpStatus = 200 ∧
    (demoServer.get "site1" (.response 200 "" (.ok ⟨some ⟨"destroy", "alice", 0⟩⟩))
        (.response 200 "" (.ok ⟨2, "snap"⟩) (.error "unused"))).body =
      .jsonSite { ID := "site1", URL := "", Status := "DELETING" } :=
  get_status_from_current_operation demoServer "site1" ""
    ⟨some ⟨"destroy", "alice", 0⟩⟩ (.response 200 "" (.ok ⟨2, "snap"⟩) (.error "unused"))
    none rfl

/-- C5: a request body that fails to decode makes Create and Update
respond 400 with a parse-failure message, with no outbound remote call
issued. -/
theorem malformed_body_400_no_calls (s : siteServer) (id e1 e2 : String)
    (r1 r2 r3 r : RemoteResult) :
    s.create (.error e1) r1 r2 r3 = ⟨400, .text "failed to parse create request", []⟩ ∧
    s.update id (.error e2) r = ⟨400, .text "failed to parse update request", []⟩ :=
  ⟨rfl, rfl⟩

/-- C6: every successful write request is answered with HTTP 202: Create
responds 202 with a JSON body whose only field is the site id, Update and
Delete respond 202 with empty bodies. -/
theorem success_accepted_202 (s : siteServer) (req : createSiteRequest)
    (id b1 b2 b3 b4 b5 : String) (u : updateSiteRequest) :
    (s.create (.ok req) (.response 200 b1) (.response 200 b2) (.response 202 b3)).httpStatus
        = 202 ∧
    (s.create (.ok req) (.response 200 b1) (.response 200 b2) (.response 202 b3)).body
        = .jsonSite { ID := req.ID, URL := "", Status := "" } ∧
    jsonSiteFields { ID := req.ID, URL := "", Status := "" } = [("id", req.ID)] ∧
    s.update id (.ok u) (.response 202 b4) =
      ⟨202, .empty,
        [OutboundCall.startDeployment s.org s.project id (updateDeploymentRequest u.Content)]⟩ ∧
    s.delete id (.response 202 b5) =
      ⟨202, .empty,
        [OutboundCall.startDeployment s.org s.project id destroyDeploymentRequest]⟩ := by
  refine ⟨rfl, rfl, ?_, rfl, rfl⟩
  simp [jsonSiteFields]

/-- C7: the Update handler issues exactly one outbound request, and that
deployment request carries `InheritSettings = true`, operation `update`,
an operation context whose environment is exactly
`SITE_CONTENT = content`, no source context and no GitHub settings. -/
theorem update_single_request_inherits_settings (s : siteServer) (id : String)
    (u : updateSiteRequest) (r : RemoteResult) :
    (s.update id (.ok u) r).calls =
      [OutboundCall.startDeployment s.org s.project id (updateDeploymentRequest u.Content)] ∧
    (updateDeploymentRequest u.Content).InheritSettings = true ∧
    (updateDeploymentRequest u.Content).Operation = "update" ∧
    (updateDeploymentRequest u.Content).OperationContext =
      some { Environment := [("SITE_CONTENT", u.Content)], OIDC := none } ∧
    (updateDeploymentRequest u.Content).SourceContext = none ∧
    (updateDeploymentRequest u.Content).GitHub = none := by
  refine ⟨?_, rfl, rfl, rfl, rfl, rfl⟩
  cases r with
  | transportError msg => rfl
  | response st body =>
    simp only [siteServer.update, siteServer.updateStack]
    split <;> rfl


/-- C2 counterexample: the conflict carve-out applies only to the
stack-registration call.  With registration succeeding (200) and the
settings call failing with a 409 conflict, Create responds 500 — so it is
not the case that a server error occurs only when registration or
settings fail for a reason other than conflict. -/
theorem create_conflict_counterexample :
    (demoServer.create (.ok ⟨"site1", "hello"⟩) (.response 200 "")
        (.response 409 "conflict") (.response 202 "")).httpStatus = 500 := rfl

/-- C2 amended: a 409 from the stack-registration call is treated exactly
like a 200 (the handler proceeds identically), and Create returns a
server error exactly when the registration response is neither a 200 nor
a 409, or registration is accepted but the settings response is not a 200
(conflict included), or both are accepted but the deployment-start
response is not a 202; transport errors count as failures throughout. -/
theorem create_conflict_idempotent_amended (s : siteServer) (req : createSiteRequest)
    (b bp : String) (r2 r3 : RemoteResult) :
    s.create (.ok req) (.response 409 b) r2 r3 =
      s.create (.ok req) (.response 200 bp) r2 r3 ∧
    ∀ r1, ((s.create (.ok req) r1 r2 r3).httpStatus = 500 ↔
      (regAccepted r1 = false ∨
       (regAccepted r1 = true ∧ hasStatus r2 200 = false) ∨
       (regAccepted r1 = true ∧ hasStatus r2 200 = true ∧ hasStatus r3 202 = false))) := by
  constructor
  · rfl
  · intro r1
    cases r1 <;> cases r2 <;> cases r3 <;>
      simp [siteServer.create, siteServer.updateStack, regAccepted, hasStatus] <;>
      split_ifs <;> simp_all <;> omega

/-- C9: Create performs no compensating rollback.  Its outbound-call trace
is exactly the registration call alone when registration is rejected, the
registration and settings calls when settings is rejected, and all three
calls (registration, then settings, then deployment start) otherwise —
and no call in the trace ever carries a destroy operation. -/
theorem create_no_rollback (s : siteServer) (req : createSiteRequest)
    (r1 r2 r3 : RemoteResult) :
    (s.create (.ok req) r1 r2 r3).calls =
      (if regAccepted r1 = false then
        [OutboundCall.createStack s.org s.project req.ID]
       else if hasStatus r2 200 = false then
        [OutboundCall.createStack s.org s.project req.ID,
         OutboundCall.configureSettings s.org s.project req.ID (createSettings s)]
       else
        [OutboundCall.createStack s.org s.project req.ID,
         OutboundCall.configureSettings s.org s.project req.ID (createSettings s),
         OutboundCall.startDeployment s.org s.project req.ID
           (updateDeploymentRequest req.Content)]) ∧
    ((s.create (.ok req) r1 r2 r3).calls.all fun c => !(c.isDestroy)) = true := by
  constructor
  · cases r1 <;> cases r2 <;> cases r3 <;>
      simp [siteServer.create, siteServer.updateStack, regAccepted, hasStatus] <;>
      split_ifs <;> simp_all
  · cases r1 <;> cases r2 <;> cases r3 <;>
      simp [siteServer.create, siteServer.updateStack, OutboundCall.isDestroy,
        updateDeploymentRequest] <;>
      split_ifs <;> simp_all

/-- C4 counterexample: a 409 from the remote API during Create's
stack-registration call is a non-2xx upstream response, yet the handler
responds 202, not 500 — so not every non-success upstream response
surfaces as a 500. -/
theorem upstream_nonsuccess_counterexample :
    (demoServer.create (.ok ⟨"site1", "hello"⟩) (.response 409 "stack already exists")
        (.response 200 "") (.response 202 "")).httpStatus = 202 := rfl

/-- C4 amended: except for a 409 from the stack-registration call during
Create (which is accepted), every upstream response failing a handler's
acceptance check — registration not 200/409, settings not 200, deployment
start or destroy not 202, or any transport error — makes the handler
respond 500 with the fixed generic body, never the upstream detail. -/
theorem upstream_failure_500_generic_amended (s : siteServer) (req : createSiteRequest)
    (id : String) (u : updateSiteRequest) :
    (∀ r1 r2 r3, regAccepted r1 = false →
       (s.create (.ok req) r1 r2 r3).httpStatus = 500 ∧
       (s.create (.ok req) r1 r2 r3).body = internalServerErrorBody) ∧
    (∀ r1 r2 r3, regAccepted r1 = true → hasStatus r2 200 = false →
       (s.create (.ok req) r1 r2 r3).httpStatus = 500 ∧
       (s.create (.ok req) r1 r2 r3).body = internalServerErrorBody) ∧
    (∀ r1 r2 r3, regAccepted r1 = true → hasStatus r2 200 = true → hasStatus r3 202 = false →
       (s.create (.ok req) r1 r2 r3).httpStatus = 500 ∧
       (s.create (.ok req) r1 r2 r3).body = internalServerErrorBody) ∧
    (∀ r, hasStatus r 202 = false →
       s.update id (.ok u) r = ⟨500, internalServerErrorBody,
         [OutboundCall.startDeployment s.org s.project id
           (updateDeploymentRequest u.Content)]⟩) ∧
    (∀ r, hasStatus r 202 = false →
       s.delete id r = ⟨500, internalServerErrorBody,
         [OutboundCall.startDeployment s.org s.project id destroyDeploymentRequest]⟩) := by
  refine ⟨?_, ?_, ?_, ?_, ?_⟩
  · intro r1 r2 r3 h1
    cases r1 <;> cases r2 <;> cases r3 <;>
      simp_all [siteServer.create, siteServer.updateStack, regAccepted] <;>
      split_ifs <;> simp_all
  · intro r1 r2 r3 h1 h2
    cases r1 <;> cases r2 <;> cases r3 <;>
      simp_all [siteServer.create, siteServer.updateStack, regAccepted, hasStatus] <;>
      split_ifs <;> simp_all
  · intro r1 r2 r3 h1 h2 h3
    cases r1 <;> cases r2 <;> cases r3 <;>
      simp_all [siteServer.create, siteServer.updateStack, regAccepted, hasStatus] <;>
      split_ifs <;> simp_all
  · intro r h
    cases r <;>
      simp_all [siteServer.update, siteServer.updateStack, hasStatus] <;>
      split_ifs <;> simp_all
  · intro r h
    cases r <;>
      simp_all [siteServer.delete, hasStatus] <;>
      split_ifs <;> simp_all

/-- Closed witness for `upstream_failure_500_generic_amended`,
instantiating each failing-step conjunct at a concrete input. -/
theorem upstream_failure_500_generic_amended_witness :
    ((demoServer.create (.ok ⟨"site1", "x"⟩) (.response 500 "boom")
        (.response 200 "") (.response 202 "")).httpStatus = 500 ∧
     (demoServer.create (.ok ⟨"site1", "x"⟩) (.response 500 "boom")
        (.response 200 "") (.response 202 "")).body = internalServerErrorBody) ∧
    ((demoServer.create (.ok ⟨"site1", "x"⟩) (.response 200 "")
        (.response 503 "bad gateway") (.response 202 "")).httpStatus = 500 ∧
     (demoServer.create (.ok ⟨"site1", "x"⟩) (.response 200 "")
        (.response 503 "bad gateway") (.response 202 "")).body = internalServerErrorBody) ∧
    ((demoServer.create (.ok ⟨"site1", "x"⟩) (.response 200 "")
        (.response 200 "") (.transportError "conn reset")).httpStatus = 500 ∧
     (demoServer.create (.ok ⟨"site1", "x"⟩) (.response 200 "")
        (.response 200 "") (.transportError "conn reset")).body = internalServerErrorBody) ∧
    demoServer.update "site1" (.ok ⟨"x"⟩) (.response 500 "boom") =
      ⟨500, internalServerErrorBody,
        [OutboundCall.startDeployment demoServer.org demoServer.project "site1"
          (updateDeploymentRequest "x")]⟩ ∧
    demoServer.delete "site1" (.response 404 "not found") =
      ⟨500, internalServerErrorBody,
        [OutboundCall.startDeployment demoServer.org demoServer.project "site1"
          destroyDeploymentRequest]⟩ :=
  ⟨(upstream_failure_500_generic_amended demoServer ⟨"site1", "x"⟩ "site1" ⟨"x"⟩).1
      (.response 500 "boom") (.response 200 "") (.response 202 "") rfl,
   (upstream_failure_500_generic_amended demoServer ⟨"site1", "x"⟩ "site1" ⟨"x"⟩).2.1
      (.response 200 "") (.response 503 "bad gateway") (.response 202 "") rfl rfl,
   (upstream_failure_500_generic_amended demoServer ⟨"site1", "x"⟩ "site1" ⟨"x"⟩).2.2.1
      (.response 200 "") (.response 200 "") (.transportError "conn reset") rfl rfl rfl,
   (upstream_failure_500_generic_amended demoServer ⟨"site1", "x"⟩ "site1" ⟨"x"⟩).2.2.2.1
      (.response 500 "boom") rfl,
   (upstream_failure_500_generic_amended demoServer ⟨"site1", "x"⟩ "site1" ⟨"x"⟩).2.2.2.2
      (.response 404 "not found") rfl⟩

/-- C8 counterexample: a successful current-user lookup — transport OK,
status 200, and a body that decodes to an empty organization list — does
make the resolution itself fail, contradicting the claim that for every
successful lookup response the resolution does not fail, including when
the returned organization list is empty.  `body.Organizations[0]` (line
410 of main.go) indexes an empty slice, a Go runtime panic, so the
resolution reaches neither the error branch nor a resolved
organization. -/
theorem resolve_default_org_counterexample :
    resolveDefaultOrg (.response 200 "" (.ok ⟨[]⟩)) = .panicIndexOutOfRange ∧
    (resolveDefaultOrg (.response 200 "" (.ok ⟨[]⟩))).succeeded = false :=
  ⟨rfl, rfl⟩

/-- C8 amended: the fatal error branch is taken exactly when the lookup
transport fails, the response status is not 200, or the body fails to
decode; a successful lookup resolves to the first returned organization
when the list is non-empty, but an empty organization list causes an
index-out-of-range panic rather than a successful resolution. -/
theorem resolve_default_org_amended :
    (∀ m, resolveDefaultOrg (.transportError m) = .fatal m) ∧
    (∀ st rb d, (∃ m, resolveDefaultOrg (.response st rb d) = .fatal m) ↔
        (st ≠ 200 ∨ ∃ e, d = .error e)) ∧
    (∀ rb o0 rest, resolveDefaultOrg (.response 200 rb (.ok ⟨o0 :: rest⟩)) =
        .ok o0.GitHubLogin) ∧
    (∀ rb, resolveDefaultOrg (.response 200 rb (.ok ⟨[]⟩)) = .panicIndexOutOfRange) := by
  refine ⟨fun m => rfl, ?_, fun rb o0 rest => rfl, fun rb => rfl⟩
  intro st rb d
  by_cases h : st = 200
  · subst h
    cases d with
    | error e => simp [resolveDefaultOrg]
    | ok b =>
      obtain ⟨orgs⟩ := b
      cases orgs <;> simp [resolveDefaultOrg]
  · simp [resolveDefaultOrg, h]

/-- Closed witness for `resolve_default_org_amended`: a successful lookup
returning one organization resolves to it, and a non-200 lookup takes the
fatal branch. -/
theorem resolve_default_org_amended_witness :
    resolveDefaultOrg (.response 200 "" (.ok ⟨[⟨"pgavlin"⟩]⟩)) = .ok "pgavlin" ∧
    (∃ m, resolveDefaultOrg (.response 401 "unauthorized" (.ok ⟨[⟨"pgavlin"⟩]⟩)) = .fatal m) :=
  ⟨resolve_default_org_amended.2.2.1 "" ⟨"pgavlin"⟩ [],
   (resolve_default_org_amended.2.1 401 "unauthorized" (.ok ⟨[⟨"pgavlin"⟩]⟩)).2
     (Or.inl (by decide))⟩

/-- C3: when both remote calls of Get return 200 and their bodies decode,
an export whose schema version differs from the one this service
understands, or whose resource list contains no resource of type
`pulumi:pulumi:Stack`, still yields a successful (200) response that
merely omits the `url` field; neither condition produces an error
response. -/
theorem get_unrecognized_export_omits_url (s : siteServer) (id rb rb2 : String)
    (gr : getStackResponse) (ud : UntypedDeployment) (dd : Except String DeploymentV3)
    (h : ud.Version ≠ DeploymentSchemaVersionCurrent ∨
         ∃ dep, dd = .ok dep ∧
           dep.Resources.find? (fun r => r.typ = "pulumi:pulumi:Stack") = none) :
    (s.get id (.response 200 rb (.ok gr)) (.response 200 rb2 (.ok ud) dd)).httpStatus
        = 200 ∧
    (s.get id (.response 200 rb (.ok gr)) (.response 200 rb2 (.ok ud) dd)).body =
      .jsonSite { ID := id, URL := "", Status := deriveStatus gr.CurrentOperation } ∧
    "url" ∉ (jsonSiteFields
      { ID := id, URL := "", Status := deriveStatus gr.CurrentOperation }).map Prod.fst := by
  have houts : getOutputs (.response 200 rb2 (.ok ud) dd) = .ok none := by
    by_cases hv : ud.Version = DeploymentSchemaVersionCurrent
    · rcases h with h | ⟨dep, hdd, hfind⟩
      · exact absurd hv h
      · simp [getOutputs, hv, hdd, hfind]
    · simp [getOutputs, hv]
  refine ⟨?_, ?_, ?_⟩
  · simp [siteServer.get, getOperation, houts]
  · simp [siteServer.get, getOperation, houts, outputsUrl]
  · simp only [jsonSiteFields]
    split_ifs <;> simp_all <;> decide

/-- Closed witness for `get_unrecognized_export_omits_url`: an export with
schema version 2 yields a 200 response whose JSON fields are just the id
and the status. -/
theorem get_unrecognized_export_omits_url_witness :
    (demoServer.get "site1" (.response 200 "" (.ok ⟨none⟩))
        (.response 200 "" (.ok ⟨2, "snap"⟩) (.error "unused"))).httpStatus = 200 ∧
    (demoServer.get "site1" (.response 200 "" (.ok ⟨none⟩))
        (.response 200 "" (.ok ⟨2, "snap"⟩) (.error "unused"))).body =
      .jsonSite { ID := "site1", URL := "", Status := "IDLE" } ∧
    "url" ∉ (jsonSiteFields { ID := "site1", URL := "", Status := "IDLE" }).map Prod.fst :=
  get_unrecognized_export_omits_url demoServer "site1" "" "" ⟨none⟩ ⟨2, "snap"⟩
    (.error "unused") (Or.inl (by decide))

/-- C10: on a successful Get whose export is understood and whose root
stack resource is found, a missing `websiteUrl` output, or a `websiteUrl`
output whose value is not a string, still yields a 200 response that
omits the `url` field; the Go type assertion uses the non-panicking
two-value form and never fails the request. -/
theorem get_url_type_assertion_total (s : siteServer) (id rb rb2 d : String)
    (gr : getStackResponse) (dep : DeploymentV3) (sr : ResourceV3)
    (hfind : dep.Resources.find? (fun r => r.typ = "pulumi:pulumi:Stack") = some sr)
    (hval : lookupOutput sr.Outputs "websiteUrl" = none ∨
            ∃ v, lookupOutput sr.Outputs "websiteUrl" = some v ∧
              ∀ t, v ≠ JValue.str t) :
    (s.get id (.response 200 rb (.ok gr))
        (.response 200 rb2 (.ok ⟨DeploymentSchemaVersionCurrent, d⟩) (.ok dep))).httpStatus
        = 200 ∧
    (s.get id (.response 200 rb (.ok gr))
        (.response 200 rb2 (.ok ⟨DeploymentSchemaVersionCurrent, d⟩) (.ok dep))).body =
      .jsonSite { ID := id, URL := "", Status := deriveStatus gr.CurrentOperation } ∧
    "url" ∉ (jsonSiteFields
      { ID := id, URL := "", Status := deriveStatus gr.CurrentOperation }).map Prod.fst := by
  have hurl : asStringOrEmpty (lookupOutput sr.Outputs "websiteUrl") = "" := by
    rcases hval with h | ⟨v, hv, hns⟩
    · simp [h, asStringOrEmpty]
    · rw [hv]
      cases v with
      | str t => exact absurd rfl (hns t)
      | num n => rfl
      | bool b => rfl
      | null => rfl
      | arr elems => rfl
      | obj fields => rfl
  have houts : getOutputs (.response 200 rb2 (.ok ⟨DeploymentSchemaVersionCurrent, d⟩)
      (.ok dep)) = .ok (some sr.Outputs) := by
    simp [getOutputs, hfind]
  refine ⟨?_, ?_, ?_⟩
  · simp [siteServer.get, getOperation, houts]
  · simp [siteServer.get, getOperation, houts, outputsUrl, hurl]
  · simp only [jsonSiteFields]
    split_ifs <;> simp_all <;> decide

/-- Closed witness for `get_url_type_assertion_total`: a root stack
resource whose `websiteUrl` output is the number 5 yields a 200 response
whose JSON fields are just the id and the status. -/
theorem get_url_type_assertion_total_witness :
    (demoServer.get "site1" (.response 200 "" (.ok ⟨some ⟨"update", "bob", 1⟩⟩))
        (.response 200 "" (.ok ⟨DeploymentSchemaVersionCurrent, "snap"⟩)
          (.ok ⟨[⟨"pulumi:pulumi:Stack", [("websiteUrl", JValue.num 5)]⟩]⟩))).httpStatus
        = 200 ∧
    (demoServer.get "site1" (.response 200 "" (.ok ⟨some ⟨"update", "bob", 1⟩⟩))
        (.response 200 "" (.ok ⟨DeploymentSchemaVersionCurrent, "snap"⟩)
          (.ok ⟨[⟨"pulumi:pulumi:Stack", [("websiteUrl", JValue.num 5)]⟩]⟩))).body =
      .jsonSite { ID := "site1", URL := "", Status := "UPDATING" } ∧
    "url" ∉ (jsonSiteFields { ID := "site1", URL := "", Status := "UPDATING" }).map
        Prod.fst :=
  get_url_type_assertion_total demoServer "site1" "" "" "snap"
    ⟨some ⟨"update", "bob", 1⟩⟩
    ⟨[⟨"pulumi:pulumi:Stack", [("websiteUrl", JValue.num 5)]⟩]⟩
    ⟨"pulumi:pulumi:Stack", [("websiteUrl", JValue.num 5)]⟩
    rfl
    (Or.inr ⟨JValue.num 5, rfl, fun t ht => nomatch ht⟩)
